import Mathlib

/-!
Verification of the waste-management dashboard core (`app.py`).

The computational core of the repository is three pure functions over
per-route tables: `summarize_routes` (group the household table by
collection route and derive cost columns), `simulate_scenario` (what-if
recomputation under a recycling delta and a fuel multiplier) and
`calculate_smart_bin_roi` (payback period per route).  Tables are embedded
as lists of structures over ℚ; the dataframe's floating-point division is
embedded by `fdiv`, which returns a non-finite marker when the denominator
is zero, matching the `inf`/`nan` the float division produces there.
-/

namespace WasteOpt

/-- Result of a dataframe-style division: either a finite rational or one of
the non-finite values float division produces on a zero denominator. -/
inductive XQ where
  | fin (q : ℚ)
  | posInf
  | negInf
  | nan
deriving DecidableEq

/-- Whether a division result is a finite number. -/
def XQ.isFinite : XQ → Bool
  | .fin _ => true
  | _ => false

/-- Division as the dataframe arithmetic performs it: a zero denominator is
not guarded and yields a non-finite value (never an error). -/
def fdiv (a b : ℚ) : XQ :=
  if b = 0 then (if a = 0 then .nan else if 0 < a then .posInf else .negInf)
  else .fin (a / b)

/-- One row of the input table `synthetic_waste_management_data.csv`
(a Household Record). -/
structure Household where
  household_id : ℕ
  collection_route : String
  population : ℚ
  waste_gen_kg_per_day : ℚ
  recycling_rate : ℚ
  route_length_km : ℚ
  route_time_hr : ℚ
deriving DecidableEq

/-- One row of the Route Summary table produced by `summarize_routes`. -/
structure RouteSummary where
  collection_route : String
  total_households : ℕ
  total_population : ℚ
  avg_waste_kg_per_day : ℚ
  avg_recycling_rate : ℚ
  avg_route_length_km : ℚ
  avg_route_time_hr : ℚ
  total_distance_km : ℚ
  total_time_hr : ℚ
  fuel_cost_per_km : ℚ
  labor_cost_per_hour : ℚ
  maintenance_cost_per_km : ℚ
  total_fuel_cost : ℚ
  total_labor_cost : ℚ
  total_maintenance_cost : ℚ
  total_operational_cost : ℚ
  total_waste_kg_per_day : ℚ
  cost_per_kg_waste : XQ
deriving DecidableEq

/-- The aggregation `summarize_routes` performs for one group `g` of
household rows sharing the route identifier `route` (app.py lines 26-47):
count/sum/mean aggregates, the three constant unit costs, and the derived
cost and waste columns. -/
def mkRouteSummary (route : String) (g : List Household) : RouteSummary :=
  let total_households : ℕ := g.length
  let avg_waste_kg_per_day : ℚ := (g.map (·.waste_gen_kg_per_day)).sum / (g.length : ℚ)
  let total_distance_km : ℚ := (g.map (·.route_length_km)).sum
  let total_time_hr : ℚ := (g.map (·.route_time_hr)).sum
  let fuel_cost_per_km : ℚ := 0.8
  let labor_cost_per_hour : ℚ := 15
  let maintenance_cost_per_km : ℚ := 0.1
  let total_fuel_cost : ℚ := total_distance_km * fuel_cost_per_km
  let total_labor_cost : ℚ := total_time_hr * labor_cost_per_hour
  let total_maintenance_cost : ℚ := total_distance_km * maintenance_cost_per_km
  let total_operational_cost : ℚ := total_fuel_cost + total_labor_cost + total_maintenance_cost
  let total_waste_kg_per_day : ℚ := (total_households : ℚ) * avg_waste_kg_per_day
  { collection_route := route
    total_households := total_households
    total_population := (g.map (·.population)).sum
    avg_waste_kg_per_day := avg_waste_kg_per_day
    avg_recycling_rate := (g.map (·.recycling_rate)).sum / (g.length : ℚ)
    avg_route_length_km := (g.map (·.route_length_km)).sum / (g.length : ℚ)
    avg_route_time_hr := (g.map (·.route_time_hr)).sum / (g.length : ℚ)
    total_distance_km := total_distance_km
    total_time_hr := total_time_hr
    fuel_cost_per_km := fuel_cost_per_km
    labor_cost_per_hour := labor_cost_per_hour
    maintenance_cost_per_km := maintenance_cost_per_km
    total_fuel_cost := total_fuel_cost
    total_labor_cost := total_labor_cost
    total_maintenance_cost := total_maintenance_cost
    total_operational_cost := total_operational_cost
    total_waste_kg_per_day := total_waste_kg_per_day
    cost_per_kg_waste := fdiv total_operational_cost total_waste_kg_per_day }

/-- The distinct route identifiers appearing in the input table (the
group-by keys of `df.groupby("collection_route")`). -/
def routesOf (df : List Household) : List String :=
  (df.map (·.collection_route)).dedup

/-- `summarize_routes` (app.py lines 25-49): one output row per distinct
`collection_route` value, aggregating that route's household rows. -/
def summarize_routes (df : List Household) : List RouteSummary :=
  (routesOf df).map (fun r => mkRouteSummary r (df.filter (fun h => h.collection_route = r)))

/-- The intermediate frame `sim` of `simulate_scenario` (app.py lines
52-58): every column of the input Route Summary row, some overwritten,
plus the two new columns. -/
structure ScenarioFull extends RouteSummary where
  new_recycling_rate : ℚ
  adjusted_waste_kg_per_day : ℚ
deriving DecidableEq

/-- The columns `simulate_scenario` returns (app.py line 59). -/
structure ScenarioRow where
  collection_route : String
  adjusted_waste_kg_per_day : ℚ
  new_recycling_rate : ℚ
  total_operational_cost : ℚ
  cost_per_kg_waste : XQ
deriving DecidableEq

/-- Column selection of line 59. -/
def ScenarioFull.project (s : ScenarioFull) : ScenarioRow :=
  { collection_route := s.collection_route
    adjusted_waste_kg_per_day := s.adjusted_waste_kg_per_day
    new_recycling_rate := s.new_recycling_rate
    total_operational_cost := s.total_operational_cost
    cost_per_kg_waste := s.cost_per_kg_waste }

/-- The per-row computation of `simulate_scenario` (app.py lines 52-58):
cap the new recycling rate at 1.0, recompute adjusted waste, overwrite the
fuel unit cost with `0.8 * fuel_cost_multiplier`, recompute fuel and total
operational cost, and divide cost by adjusted waste. -/
def simulate_row (s : RouteSummary) (recycling_increase fuel_cost_multiplier : ℚ) :
    ScenarioFull :=
  let nr : ℚ := min (s.avg_recycling_rate + recycling_increase) 1
  let adjusted : ℚ := (s.total_households : ℚ) * s.avg_waste_kg_per_day * (1 - nr)
  let fpk : ℚ := 0.8 * fuel_cost_multiplier
  let tf : ℚ := s.total_distance_km * fpk
  let toc : ℚ := tf + s.total_labor_cost + s.total_maintenance_cost
  { toRouteSummary :=
      { s with
        fuel_cost_per_km := fpk
        total_fuel_cost := tf
        total_operational_cost := toc
        cost_per_kg_waste := fdiv toc adjusted }
    new_recycling_rate := nr
    adjusted_waste_kg_per_day := adjusted }

/-- `simulate_scenario` (app.py lines 51-59) on a whole Route Summary
table. -/
def simulate_scenario (t : List RouteSummary) (recycling_increase fuel_cost_multiplier : ℚ) :
    List ScenarioRow :=
  t.map (fun s => (simulate_row s recycling_increase fuel_cost_multiplier).project)

/-- One row of `calculate_smart_bin_roi`'s output. -/
structure RoiRow where
  collection_route : String
  total_operational_cost : ℚ
  expected_annual_savings : ℚ
  roi_years : XQ
deriving DecidableEq

/-- The per-row computation of `calculate_smart_bin_roi` (app.py lines
61-65). -/
def roi_row (s : RouteSummary) (smart_bin_cost_per_route annual_savings_factor : ℚ) :
    RoiRow :=
  let savings : ℚ := s.total_operational_cost * annual_savings_factor
  { collection_route := s.collection_route
    total_operational_cost := s.total_operational_cost
    expected_annual_savings := savings
    roi_years := fdiv smart_bin_cost_per_route savings }

/-- `calculate_smart_bin_roi` (app.py lines 61-65) on a whole table. -/
def calculate_smart_bin_roi (t : List RouteSummary) (c f : ℚ) : List RoiRow :=
  t.map (fun s => roi_row s c f)

/-! Concrete sample data used by witnesses. -/

/-- A concrete household row on route `"W"`. -/
def hW : Household :=
  { household_id := 1, collection_route := "W", population := 3,
    waste_gen_kg_per_day := 4, recycling_rate := 1/2,
    route_length_km := 5, route_time_hr := 2 }

/-- A one-household input table. -/
def dfW : List Household := [hW]

/-- The Route Summary row the aggregator produces for `dfW`. -/
def rowW : RouteSummary := mkRouteSummary "W" dfW

theorem rowW_mem : rowW ∈ summarize_routes dfW := by
  show rowW ∈ [rowW]
  exact List.mem_singleton.mpr rfl

/-- A concrete Route Summary row satisfying the aggregator's invariants. -/
def sampleSummary : RouteSummary :=
  { collection_route := "S", total_households := 2, total_population := 7,
    avg_waste_kg_per_day := 5, avg_recycling_rate := 1/2,
    avg_route_length_km := 5, avg_route_time_hr := 1,
    total_distance_km := 10, total_time_hr := 2,
    fuel_cost_per_km := 0.8, labor_cost_per_hour := 15,
    maintenance_cost_per_km := 0.1,
    total_fuel_cost := 8, total_labor_cost := 30, total_maintenance_cost := 1,
    total_operational_cost := 39, total_waste_kg_per_day := 10,
    cost_per_kg_waste := .fin (39/10) }

/-! Claims. -/

/-- Claim C1: in every Route Aggregator output row, and in the Scenario
Simulator's recomputed frame, `total_operational_cost` is exactly the sum
of `total_fuel_cost`, `total_labor_cost` and `total_maintenance_cost`. -/
theorem C1_total_cost_is_sum (df : List Household) (row : RouteSummary)
    (h : row ∈ summarize_routes df) (s : RouteSummary) (r m : ℚ) :
    row.total_operational_cost
      = row.total_fuel_cost + row.total_labor_cost + row.total_maintenance_cost
    ∧ (simulate_row s r m).total_operational_cost
      = (simulate_row s r m).total_fuel_cost + (simulate_row s r m).total_labor_cost
        + (simulate_row s r m).total_maintenance_cost := by
  obtain ⟨r0, hr0, rfl⟩ := List.mem_map.1 h
  exact ⟨rfl, rfl⟩

/-- Witness for C1 at the concrete table `dfW` and row `sampleSummary`. -/
theorem C1_witness :
    rowW ∈ summarize_routes dfW
    ∧ (rowW.total_operational_cost
        = rowW.total_fuel_cost + rowW.total_labor_cost + rowW.total_maintenance_cost
      ∧ (simulate_row sampleSummary (1/10) 1).total_operational_cost
        = (simulate_row sampleSummary (1/10) 1).total_fuel_cost
          + (simulate_row sampleSummary (1/10) 1).total_labor_cost
          + (simulate_row sampleSummary (1/10) 1).total_maintenance_cost) :=
  ⟨rowW_mem, C1_total_cost_is_sum dfW rowW rowW_mem sampleSummary (1/10) 1⟩

/-- Claim C2: for every Route Summary row and recycling increase `r ≥ 0`,
the simulator's `new_recycling_rate` is `min (avg_recycling_rate + r) 1`;
in particular `r = 1` with any positive base rate gives exactly `1`. -/
theorem C2_new_recycling_rate_capped (s : RouteSummary) (r m : ℚ) (_hr : 0 ≤ r) :
    (simulate_row s r m).new_recycling_rate = min (s.avg_recycling_rate + r) 1
    ∧ (0 < s.avg_recycling_rate → (simulate_row s 1 m).new_recycling_rate = 1) := by
  refine ⟨rfl, fun hpos => ?_⟩
  show min (s.avg_recycling_rate + 1) 1 = 1
  exact min_eq_right (by linarith)

/-- Witness for C2 at `sampleSummary`, `r = 1/5`. -/
theorem C2_witness :
    (0 : ℚ) ≤ 1/5
    ∧ ((simulate_row sampleSummary (1/5) 1).new_recycling_rate
        = min (sampleSummary.avg_recycling_rate + 1/5) 1
      ∧ (0 < sampleSummary.avg_recycling_rate
        → (simulate_row sampleSummary 1 1).new_recycling_rate = 1)) :=
  ⟨by norm_num, C2_new_recycling_rate_capped sampleSummary (1/5) 1 (by norm_num)⟩

/-- Claim C3: the Scenario Simulator at `recycling_increase = 0` and
`fuel_cost_multiplier = 1` reproduces, on every Route Aggregator row, the
row's own `total_operational_cost`. -/
theorem C3_defaults_reproduce_cost (df : List Household) (row : RouteSummary)
    (h : row ∈ summarize_routes df) :
    (simulate_row row 0 1).total_operational_cost = row.total_operational_cost := by
  obtain ⟨r0, hr0, rfl⟩ := List.mem_map.1 h
  show _ * (0.8 * 1) + _ + _ = _
  rw [mul_one]
  rfl

/-- Witness for C3 at the concrete table `dfW`. -/
theorem C3_witness :
    rowW ∈ summarize_routes dfW
    ∧ (simulate_row rowW 0 1).total_operational_cost = rowW.total_operational_cost :=
  ⟨rowW_mem, C3_defaults_reproduce_cost dfW rowW rowW_mem⟩

/-- Claim C4: the Route Aggregator emits exactly one row per distinct
route identifier present in the input (no duplicate route rows, and a
route appears in the output iff some input row carries it), and the empty
input yields the empty output table without error. -/
theorem C4_one_row_per_distinct_route (df : List Household) :
    ((summarize_routes df).map (·.collection_route)).Nodup
    ∧ (∀ r : String,
        r ∈ (summarize_routes df).map (·.collection_route)
          ↔ ∃ h ∈ df, h.collection_route = r)
    ∧ summarize_routes ([] : List Household) = [] := by
  have key : (summarize_routes df).map (·.collection_route) = routesOf df := by
    unfold summarize_routes
    rw [List.map_map]
    have hcomp :
        ((·.collection_route)
          ∘ fun r => mkRouteSummary r (df.filter (fun h => h.collection_route = r)))
        = id := rfl
    rw [hcomp, List.map_id]
  refine ⟨?_, fun r => ?_, rfl⟩
  · rw [key]
    exact (df.map (·.collection_route)).nodup_dedup
  · rw [key]
    unfold routesOf
    rw [List.mem_dedup, List.mem_map]

/-- The two-household table of the spec's worked example: one route with
2 households, each generating 5 kg/day, route length 5 km and route time
1 hr per row, so the route sums to 10 km and 2 hr. -/
def dfC5 : List Household :=
  [ { household_id := 1, collection_route := "R", population := 3,
      waste_gen_kg_per_day := 5, recycling_rate := 1/2,
      route_length_km := 5, route_time_hr := 1 },
    { household_id := 2, collection_route := "R", population := 4,
      waste_gen_kg_per_day := 5, recycling_rate := 1/2,
      route_length_km := 5, route_time_hr := 1 } ]

/-- Claim C5: on a route with 2 households, mean waste 5 kg/day, total
distance 10 km and total time 2 hr, the aggregator derives total waste 10,
fuel cost 8.0, labor cost 30.0, maintenance cost 1.0, operational cost
39.0 and cost per kg 3.9. -/
theorem C5_worked_example :
    summarize_routes dfC5 = [mkRouteSummary "R" dfC5]
    ∧ (mkRouteSummary "R" dfC5).total_households = 2
    ∧ (mkRouteSummary "R" dfC5).avg_waste_kg_per_day = 5
    ∧ (mkRouteSummary "R" dfC5).total_distance_km = 10
    ∧ (mkRouteSummary "R" dfC5).total_time_hr = 2
    ∧ (mkRouteSummary "R" dfC5).total_waste_kg_per_day = 10
    ∧ (mkRouteSummary "R" dfC5).total_fuel_cost = 8
    ∧ (mkRouteSummary "R" dfC5).total_labor_cost = 30
    ∧ (mkRouteSummary "R" dfC5).total_maintenance_cost = 1
    ∧ (mkRouteSummary "R" dfC5).total_operational_cost = 39
    ∧ (mkRouteSummary "R" dfC5).cost_per_kg_waste = .fin 3.9 := by
  refine ⟨rfl, rfl, ?_, ?_, ?_, ?_, ?_, ?_, ?_, ?_, ?_⟩
  all_goals norm_num [mkRouteSummary, dfC5, fdiv]

/-- Claim C6 fails as stated: a negative savings factor below a positive
one gives a negative payback that is smaller, not larger.  At
`sampleSummary` (operational cost 39) with bin cost 2000, `f1 = -1 < f2 = 1`
give `roi_years` `-(2000/39)` and `2000/39`, and the value at `f2` is not
smaller than the value at `f1`. -/
theorem C6_counterexample :
    (-1 : ℚ) < 1
    ∧ (roi_row sampleSummary 2000 (-1)).roi_years = XQ.fin (-(2000/39))
    ∧ (roi_row sampleSummary 2000 1).roi_years = XQ.fin (2000/39)
    ∧ ¬ ((2000/39 : ℚ) < -(2000/39)) := by
  refine ⟨by norm_num, ?_, ?_, by norm_num⟩
  · norm_num [roi_row, sampleSummary, fdiv]
  · norm_num [roi_row, sampleSummary, fdiv]

/-- Claim C6 (amended): holding a route's positive `total_operational_cost`
fixed, at the default bin cost 2000 the payback `roi_years` is strictly
decreasing in the savings factor over positive factors `0 < f1 < f2`. -/
theorem C6_roi_monotone (s : RouteSummary) (f1 f2 : ℚ)
    (hT : 0 < s.total_operational_cost) (h1 : 0 < f1) (h12 : f1 < f2) :
    ∃ y1 y2 : ℚ,
      (roi_row s 2000 f1).roi_years = XQ.fin y1
      ∧ (roi_row s 2000 f2).roi_years = XQ.fin y2
      ∧ y2 < y1 := by
  have hd1 : 0 < s.total_operational_cost * f1 := mul_pos hT h1
  have hd2 : 0 < s.total_operational_cost * f2 := mul_pos hT (h1.trans h12)
  refine ⟨2000 / (s.total_operational_cost * f1),
          2000 / (s.total_operational_cost * f2), ?_, ?_, ?_⟩
  · simp [roi_row, fdiv, hd1.ne']
  · simp [roi_row, fdiv, hd2.ne']
  · exact (div_lt_div_iff_of_pos_left (by norm_num) hd2 hd1).2 (mul_lt_mul_of_pos_left h12 hT)

/-- Witness for the amended C6 at `sampleSummary`, factors 1/10 < 3/20. -/
theorem C6_witness :
    (0 : ℚ) < sampleSummary.total_operational_cost
    ∧ (0 : ℚ) < 1/10 ∧ (1/10 : ℚ) < 3/20
    ∧ ∃ y1 y2 : ℚ,
        (roi_row sampleSummary 2000 (1/10)).roi_years = XQ.fin y1
        ∧ (roi_row sampleSummary 2000 (3/20)).roi_years = XQ.fin y2
        ∧ y2 < y1 :=
  ⟨by norm_num [sampleSummary], by norm_num, by norm_num,
   C6_roi_monotone sampleSummary (1/10) (3/20)
     (by norm_num [sampleSummary]) (by norm_num) (by norm_num)⟩

/-- Claim C7: the simulator's `cost_per_kg_waste` is the unguarded
division of total cost by adjusted waste, and on every row whose adjusted
waste is zero the result is a non-finite value (the row is still
produced, not an error). -/
theorem C7_division_unguarded (s : RouteSummary) (r m : ℚ)
    (h0 : (simulate_row s r m).adjusted_waste_kg_per_day = 0) :
    (simulate_row s r m).cost_per_kg_waste
      = fdiv (simulate_row s r m).total_operational_cost
          (simulate_row s r m).adjusted_waste_kg_per_day
    ∧ (simulate_row s r m).cost_per_kg_waste.isFinite = false := by
  have hc : (simulate_row s r m).cost_per_kg_waste
      = fdiv (simulate_row s r m).total_operational_cost
          (simulate_row s r m).adjusted_waste_kg_per_day := rfl
  refine ⟨hc, ?_⟩
  rw [hc, h0]
  unfold fdiv
  rw [if_pos rfl]
  split_ifs <;> rfl

/-- Witness for C7: a row whose recycling rate is already 1 has adjusted
waste 0 under `recycling_increase = 0`. -/
theorem C7_witness :
    (simulate_row { sampleSummary with avg_recycling_rate := 1 } 0 1).adjusted_waste_kg_per_day = 0
    ∧ ((simulate_row { sampleSummary with avg_recycling_rate := 1 } 0 1).cost_per_kg_waste
        = fdiv (simulate_row { sampleSummary with avg_recycling_rate := 1 } 0 1).total_operational_cost
            (simulate_row { sampleSummary with avg_recycling_rate := 1 } 0 1).adjusted_waste_kg_per_day
      ∧ (simulate_row { sampleSummary with avg_recycling_rate := 1 } 0 1).cost_per_kg_waste.isFinite
          = false) :=
  ⟨by norm_num [simulate_row, sampleSummary, min_def],
   C7_division_unguarded { sampleSummary with avg_recycling_rate := 1 } 0 1
     (by norm_num [simulate_row, sampleSummary, min_def])⟩

/-- Two Route Summary rows equal except possibly in `fuel_cost_per_km`. -/
def eqExceptFuel (s1 s2 : RouteSummary) : Prop :=
  ∃ q : ℚ, s2 = { s1 with fuel_cost_per_km := q }

theorem simulate_row_eqExceptFuel (s1 s2 : RouteSummary) (r m : ℚ)
    (h : eqExceptFuel s1 s2) : simulate_row s2 r m = simulate_row s1 r m := by
  obtain ⟨q, rfl⟩ := h
  rfl

/-- Claim C8: the simulator ignores the input `fuel_cost_per_km` column —
tables equal except in that column produce identical outputs, because the
column is overwritten with `0.8 * fuel_cost_multiplier`. -/
theorem C8_fuel_column_ignored (t1 t2 : List RouteSummary) (r m : ℚ)
    (h : List.Forall₂ eqExceptFuel t1 t2) :
    simulate_scenario t1 r m = simulate_scenario t2 r m := by
  induction h with
  | nil => rfl
  | @cons a b as bs h1 _ ih =>
      simp only [simulate_scenario, List.map_cons] at *
      rw [simulate_row_eqExceptFuel a b r m h1, ih]

/-- Witness for C8: one-row tables differing only in `fuel_cost_per_km`. -/
theorem C8_witness :
    List.Forall₂ eqExceptFuel [sampleSummary]
      [{ sampleSummary with fuel_cost_per_km := 99 }]
    ∧ simulate_scenario [sampleSummary] (1/10) 1
        = simulate_scenario [{ sampleSummary with fuel_cost_per_km := 99 }] (1/10) 1 :=
  ⟨List.Forall₂.cons ⟨99, rfl⟩ List.Forall₂.nil,
   C8_fuel_column_ignored _ _ (1/10) 1
     (List.Forall₂.cons ⟨99, rfl⟩ List.Forall₂.nil)⟩

/-- Claim C9: there is no lower bound on the new recycling rate — the
`min` formula holds for every input, negative increases included, and for
a concrete row with `recycling_increase < -avg_recycling_rate` the rate
goes negative and adjusted waste exceeds households × mean waste. -/
theorem C9_no_lower_bound :
    (∀ (s : RouteSummary) (r m : ℚ),
      (simulate_row s r m).new_recycling_rate = min (s.avg_recycling_rate + r) 1)
    ∧ ∃ (s : RouteSummary) (r : ℚ),
        r < -s.avg_recycling_rate
        ∧ (simulate_row s r 1).new_recycling_rate < 0
        ∧ (s.total_households : ℚ) * s.avg_waste_kg_per_day
            < (simulate_row s r 1).adjusted_waste_kg_per_day := by
  refine ⟨fun s r m => rfl, sampleSummary, -1, ?_, ?_, ?_⟩
  · norm_num [sampleSummary]
  · norm_num [simulate_row, sampleSummary, min_def]
  · norm_num [simulate_row, sampleSummary, min_def]

/-- Helper for C10: with positive cost `T`, positive waste `W` and a
recycling rate `a` in `(0, 1]`, dividing the same cost by `W * (1 - a)`
never gives the same result as dividing it by `W`. -/
theorem cost_ratio_differs (T W a : ℚ) (ha0 : 0 < a) (ha1 : a ≤ 1)
    (hW : 0 < W) (hT : 0 < T) : fdiv T (W * (1 - a)) ≠ fdiv T W := by
  rcases eq_or_lt_of_le ha1 with h1 | h1
  · have hz : W * (1 - a) = 0 := by rw [← h1]; ring
    rw [hz]
    simp [fdiv, hT.ne', hT, hW.ne']
  · have hd : 0 < W * (1 - a) := mul_pos hW (by linarith)
    simp only [fdiv, if_neg hd.ne', if_neg hW.ne']
    intro hEq
    rw [XQ.fin.injEq] at hEq
    have hlt : W * (1 - a) < W := by nlinarith [mul_pos hW ha0]
    have hcontra : T / W < T / (W * (1 - a)) := (div_lt_div_iff_of_pos_left hT hW hd).2 hlt
    rw [hEq] at hcontra
    exact lt_irrefl _ hcontra

/-- Invariants every Route Aggregator output row satisfies, read off the
definition of `mkRouteSummary`. -/
theorem summarize_mem_invariants (df : List Household) (row : RouteSummary)
    (h : row ∈ summarize_routes df) :
    row.total_waste_kg_per_day = (row.total_households : ℚ) * row.avg_waste_kg_per_day
    ∧ row.total_fuel_cost = row.total_distance_km * row.fuel_cost_per_km
    ∧ row.fuel_cost_per_km = 0.8
    ∧ row.total_operational_cost
        = row.total_fuel_cost + row.total_labor_cost + row.total_maintenance_cost
    ∧ row.cost_per_kg_waste = fdiv row.total_operational_cost row.total_waste_kg_per_day := by
  obtain ⟨r0, hr0, rfl⟩ := List.mem_map.1 h
  exact ⟨rfl, rfl, rfl, rfl, rfl⟩

/-- Claim C10 fails as stated on a degenerate route: zero distance and
zero time give zero operational cost, and both the base and the scenario
cost-per-kg are then `0`, so they do not differ even though the recycling
rate is 1/2. -/
def dfZ : List Household :=
  [ { household_id := 1, collection_route := "Z", population := 2,
      waste_gen_kg_per_day := 1, recycling_rate := 1/2,
      route_length_km := 0, route_time_hr := 0 } ]

/-- The aggregator row for `dfZ`. -/
def rowZ : RouteSummary := mkRouteSummary "Z" dfZ

/-- Counterexample to C10 as stated: `rowZ` has recycling rate 1/2 in
`(0, 1]`, yet the scenario's `cost_per_kg_waste` at default parameters
equals the base row's (both are `0`, since the operational cost is 0). -/
theorem C10_counterexample :
    rowZ ∈ summarize_routes dfZ
    ∧ 0 < rowZ.avg_recycling_rate
    ∧ rowZ.avg_recycling_rate ≤ 1
    ∧ (simulate_row rowZ 0 1).cost_per_kg_waste = rowZ.cost_per_kg_waste := by
  refine ⟨?_, ?_, ?_, ?_⟩
  · show rowZ ∈ [rowZ]
    exact List.mem_singleton.mpr rfl
  · norm_num [rowZ, mkRouteSummary, dfZ]
  · norm_num [rowZ, mkRouteSummary, dfZ]
  · norm_num [rowZ, mkRouteSummary, dfZ, simulate_row, fdiv, min_def]

/-- Claim C10 (amended): at default parameters the adjusted waste of an
aggregator row with `avg_recycling_rate ≤ 1` equals
`total_waste_kg_per_day * (1 - avg_recycling_rate)`; and on every such row
with rate in `(0, 1]`, positive total waste and positive operational cost,
the scenario reproduces `total_operational_cost` but its
`cost_per_kg_waste` differs from the base row's. -/
theorem C10_default_scenario_cost_shift (df : List Household) (row : RouteSummary)
    (h : row ∈ summarize_routes df) :
    (row.avg_recycling_rate ≤ 1 →
      (simulate_row row 0 1).adjusted_waste_kg_per_day
        = row.total_waste_kg_per_day * (1 - row.avg_recycling_rate))
    ∧ (0 < row.avg_recycling_rate → row.avg_recycling_rate ≤ 1
        → 0 < row.total_waste_kg_per_day → 0 < row.total_operational_cost →
        (simulate_row row 0 1).total_operational_cost = row.total_operational_cost
        ∧ (simulate_row row 0 1).cost_per_kg_waste ≠ row.cost_per_kg_waste) := by
  obtain ⟨hWdef, hfc, hfpk, htocdef, hcdef⟩ := summarize_mem_invariants df row h
  have hadj : (simulate_row row 0 1).adjusted_waste_kg_per_day
      = (row.total_households : ℚ) * row.avg_waste_kg_per_day
          * (1 - min (row.avg_recycling_rate + 0) 1) := rfl
  have htoc : (simulate_row row 0 1).total_operational_cost
      = row.total_distance_km * (0.8 * 1) + row.total_labor_cost
          + row.total_maintenance_cost := rfl
  have hscost : (simulate_row row 0 1).cost_per_kg_waste
      = fdiv (simulate_row row 0 1).total_operational_cost
          (simulate_row row 0 1).adjusted_waste_kg_per_day := rfl
  have htocEq : (simulate_row row 0 1).total_operational_cost = row.total_operational_cost := by
    rw [htoc, mul_one, htocdef, hfc, hfpk]
  refine ⟨fun ha1 => ?_, fun ha0 ha1 hW hT => ⟨htocEq, ?_⟩⟩
  · rw [hadj, add_zero, min_eq_left ha1, hWdef]
  · rw [hscost, htocEq, hadj, add_zero, min_eq_left ha1, ← hWdef, hcdef]
    exact cost_ratio_differs _ _ _ ha0 ha1 hW hT

/-- Witness for the amended C10 at the concrete table `dfW` (recycling
rate 1/2, total waste 4, operational cost 34.5). -/
theorem C10_witness :
    rowW ∈ summarize_routes dfW
    ∧ rowW.avg_recycling_rate ≤ 1
    ∧ 0 < rowW.avg_recycling_rate
    ∧ 0 < rowW.total_waste_kg_per_day
    ∧ 0 < rowW.total_operational_cost
    ∧ (simulate_row rowW 0 1).total_operational_cost = rowW.total_operational_cost
    ∧ (simulate_row rowW 0 1).cost_per_kg_waste ≠ rowW.cost_per_kg_waste :=
  have h1 : rowW.avg_recycling_rate ≤ 1 := by norm_num [rowW, mkRouteSummary, dfW, hW]
  have h0 : 0 < rowW.avg_recycling_rate := by norm_num [rowW, mkRouteSummary, dfW, hW]
  have hw : 0 < rowW.total_waste_kg_per_day := by norm_num [rowW, mkRouteSummary, dfW, hW]
  have ht : 0 < rowW.total_operational_cost := by norm_num [rowW, mkRouteSummary, dfW, hW]
  ⟨rowW_mem, h1, h0, hw, ht,
   ((C10_default_scenario_cost_shift dfW rowW rowW_mem).2 h0 h1 hw ht).1,
   ((C10_default_scenario_cost_shift dfW rowW rowW_mem).2 h0 h1 hw ht).2⟩

end WasteOpt
